import Mathlib

/-
Shallow embedding of the process launcher in src/native/spawn.cc
(`path_val`, `pfind`, `exec0`, and the binding entry point `exec_0`),
together with theorems settling the specification claims about it.

Modelling conventions:
* `Sys` packages the ambient OS facts a call observes: `access(p, X_OK) == 0`
  is `Sys.exec p = true`, `getenv("PATH")` is `Sys.inheritedPath`
  (`none` when unset), and `strerror(errno)` after a failed `fork` is
  `Sys.forkErrMsg`.
* C strings are Lean `String`s at character level; a `NULL` `char *` is
  `none : Option String`; a `NULL`-terminated `char *const []` is a
  `List String` (so `envp == NULL || envp[0] == NULL` is the empty list).
* The error buffer a function may write is returned as an `Option String`
  field: `none` means the buffer was left untouched.
* The outcomes of the fallible syscalls made during one `exec0` call are
  passed in as oracles: `p0 p1 p2 : Option Pipe` are the results of the
  three `pipe()` calls in program order (`none` = failure), and
  `forkRes : Option Nat` is the `fork()` outcome as the parent observes it
  (`none` = failure, `some cpid` = success with child pid `cpid`).
* `exec0` is modelled from the launcher's side; the child continuation
  (lines 124-167) never returns from `exec0` and is modelled separately by
  `childContinuation`.  `argv` and `dirpath` only affect the child image,
  so the launcher-side `exec0` model does not take them.
* `exec_0` always passes a non-`NULL` `channels` array, so the model takes
  the `channels != NULL` branches.
-/

namespace Spawn

/-- PATH_MAX as fixed at the top of spawn.cc. -/
def PATH_MAX : Nat := 1024

/-- Length of the literal "PATH=" (spawn.cc line 20). -/
def path_def_len : Nat := 5

/-- Ambient OS facts observed during one launcher call. -/
structure Sys where
  exec : String → Bool
  inheritedPath : Option String
  forkErrMsg : String

/-- Embedding of `strncmp(PATH_DEF, p, path_def_len) == 0` (spawn.cc line
32): `p` begins with the five characters "PATH=". -/
def hasPathDef (p : String) : Bool :=
  p.data.take path_def_len = "PATH=".data

/-- Loop of `path_val` (spawn.cc lines 30-35): scan the environment list in
order and return the suffix after "PATH=" of the first entry that begins
with it; `NULL` when none does. -/
def path_val_loop : List String → Option String
  | [] => none
  | p :: rest =>
    if hasPathDef p then some (String.mk (p.data.drop path_def_len))
    else path_val_loop rest

/-- Function `path_val` (spawn.cc lines 24-38): with a `NULL` or empty
environment list, fall back to the inherited `getenv("PATH")`; otherwise
scan the list. -/
def path_val (sys : Sys) (envp : List String) : Option String :=
  match envp with
  | [] => sys.inheritedPath
  | _ :: _ => path_val_loop envp

/-- Result of one `pfind` call: the returned path (`NULL` = `none`) and the
message written to the caller's error buffer, if any (`none` = the buffer
was not written). -/
structure PfindResult where
  result : Option String
  errMsg : Option String
deriving DecidableEq

/-- The candidate path `snprintf(fullpath, sizeof(fullpath) - 1, "%s/%s", tok, name)`
builds (spawn.cc line 74): `<dir>/<name>` truncated to PATH_MAX - 1
characters. -/
def candidate (dir name : String) : String :=
  String.mk ((dir ++ "/" ++ name).data.take (PATH_MAX - 1))

/-- Character-level `strtok_r(path, ":", &sp)` tokenizer: delimiters
separate maximal non-empty runs, so runs of ':' and leading/trailing ':'
yield no token.  `acc` holds the characters of the token being read,
reversed. -/
def tokenizeAux : List Char → List Char → List (List Char)
  | [], acc => if acc.isEmpty then [] else [acc.reverse]
  | c :: cs, acc =>
    if c = ':' then
      if acc.isEmpty then tokenizeAux cs []
      else acc.reverse :: tokenizeAux cs []
    else tokenizeAux cs (c :: acc)

/-- The sequence of tokens the `strtok_r` loop of `pfind` visits. -/
def strtokSplit (s : String) : List String :=
  (tokenizeAux s.data []).map String.mk

/-- Search loop of `pfind` (spawn.cc lines 72-82): test each directory's
candidate in order, returning the first executable one. -/
def pfindLoop (sys : Sys) (name : String) : List String → Option String
  | [] => none
  | d :: ds =>
    if sys.exec (candidate d name) then some (candidate d name)
    else pfindLoop sys name ds

/-- Function `pfind` (spawn.cc lines 40-86). -/
def pfind (sys : Sys) (name : Option String) (envp : List String) : PfindResult :=
  match name with
  | none => ⟨none, some "pfind(): Null argument.\n"⟩
  | some name =>
    if name.data.head? = some '/' ∨ name.data.head? = some '.' then
      ⟨if sys.exec name then some name else none, none⟩
    else
      match path_val sys envp with
      | none => ⟨none, some "Unable to get $PATH.\n"⟩
      | some path =>
        if path.length = 0 then ⟨none, some "Unable to get $PATH.\n"⟩
        else ⟨pfindLoop sys name (strtokSplit path), none⟩

/-- A pipe as returned by a successful `pipe()` call: `r` is element 0 (the
read end), `w` is element 1 (the write end). -/
structure Pipe where
  r : Nat
  w : Nat
deriving DecidableEq

/-- Effect of `close(fd)` on the set of open descriptors. -/
def closeFd (fds : List Nat) (fd : Nat) : List Nat :=
  fds.filter (· ≠ fd)

/-- Launcher-side observables of one `exec0` call: the returned pid, the
`channels` array when written, the message written to `errbuff` (if any),
the descriptors opened during the call that are still open launcher-side at
return, how many `pipe()` calls were made, and whether `fork()` was
reached. -/
structure Exec0Result where
  pid : Int
  channels : Option (Nat × Nat × Nat)
  errMsg : Option String
  openFds : List Nat
  pipeCalls : Nat
  forked : Bool
deriving DecidableEq

/-- Function `exec0` (spawn.cc lines 88-197), launcher side.  `garbage`
stands for the uninitialized contents of the stack buffer `pfind_errbuff`,
read by the `%s` format when `pfind` fails without writing it. -/
def exec0 (sys : Sys) (p0 p1 p2 : Option Pipe) (forkRes : Option Nat)
    (garbage : String) (path : Option String) (envp : List String) : Exec0Result :=
  let pf := pfind sys path envp
  match pf.result with
  | none =>
    { pid := -1, channels := none
      , errMsg := some ("Unable to find full path for \"" ++ path.getD "" ++ "\"\n"
          ++ pf.errMsg.getD garbage ++ "\n")
      , openFds := [], pipeCalls := 0, forked := false }
  | some _ =>
    match p0 with
    | none =>
      { pid := -1, channels := none
        , errMsg := some "exec0: returning due to error.\n"
        , openFds := [], pipeCalls := 1, forked := false }
    | some pipe0 =>
      match p1 with
      | none =>
        { pid := -1, channels := none
          , errMsg := some "exec0: returning due to error.\n"
          , openFds := [pipe0.r, pipe0.w], pipeCalls := 2, forked := false }
      | some pipe1 =>
        match p2 with
        | none =>
          { pid := -1, channels := none
            , errMsg := some "exec0: returning due to error.\n"
            , openFds := [pipe0.r, pipe0.w, pipe1.r, pipe1.w], pipeCalls := 3
            , forked := false }
        | some pipe2 =>
          match forkRes with
          | none =>
            { pid := -1, channels := none
              , errMsg := some ("exec0: returning due to error: " ++ sys.forkErrMsg ++ "\n")
              , openFds := [pipe0.r, pipe0.w, pipe1.r, pipe1.w, pipe2.r, pipe2.w]
              , pipeCalls := 3, forked := true }
          | some cpid =>
            let fds0 := [pipe0.r, pipe0.w, pipe1.r, pipe1.w, pipe2.r, pipe2.w]
            let fds1 := closeFd fds0 pipe0.r
            let fds2 := closeFd fds1 pipe1.w
            let fds3 := closeFd fds2 pipe2.w
            { pid := (cpid : Int), channels := some (pipe0.w, pipe1.r, pipe2.r)
              , errMsg := none, openFds := fds3, pipeCalls := 3, forked := true }

/-- Which image-replacement call the child issues (spawn.cc lines 161-165). -/
inductive ExecVariant
  | execv
  | execve
deriving DecidableEq

/-- How the child continuation ends: image replaced, or `_exit` with the
given status. -/
inductive ChildOutcome
  | replaced
  | exited (code : Nat)
deriving DecidableEq

/-- Observables of the child continuation. -/
structure ChildResult where
  variant : ExecVariant
  outcome : ChildOutcome
deriving DecidableEq

/-- Child continuation after a successful fork (spawn.cc lines 124-167),
restricted to the image-replacement observables: `execv` when the given
environment list is empty, `execve` otherwise, and `_exit(127)` when the
chosen call fails (`execOk = false`). -/
def childContinuation (envp : List String) (execOk : Bool) : ChildResult :=
  { variant := if envp = [] then ExecVariant.execv else ExecVariant.execve
    , outcome := if execOk then ChildOutcome.replaced else ChildOutcome.exited 127 }

/-- The structured object `exec_0` returns to the caller: `pid` plus either
the three channel keys (success) or the `errmsg` key (failure); `none`
marks an absent key. -/
structure ExecResponse where
  pid : Int
  stdinFd : Option Nat
  stdoutFd : Option Nat
  stderrFd : Option Nat
  errmsg : Option String
deriving DecidableEq

/-- Observables of one call to the binding entry point `exec_0`: the
underlying `exec0` call, the returned object, and the message passed to the
`log` callback when it is invoked (`none` = not invoked). -/
structure NativeExecResult where
  core : Exec0Result
  response : ExecResponse
  logMsg : Option String
deriving DecidableEq

/-- Function `exec_0` (spawn.cc lines 246-287): call `exec0` with `argv[0]`
as the program name, invoke `log` with the error buffer when `pid <= 0`,
then build the response object. -/
def exec_0 (sys : Sys) (p0 p1 p2 : Option Pipe) (forkRes : Option Nat)
    (garbage : String) (args envs : List String) : NativeExecResult :=
  let core := exec0 sys p0 p1 p2 forkRes garbage args.head? envs
  let logMsg := if core.pid ≤ 0 then some (core.errMsg.getD garbage) else none
  let response : ExecResponse :=
    if core.pid > 0 then
      { pid := core.pid
        , stdinFd := core.channels.map (fun c => c.1)
        , stdoutFd := core.channels.map (fun c => c.2.1)
        , stderrFd := core.channels.map (fun c => c.2.2)
        , errmsg := none }
    else
      { pid := core.pid, stdinFd := none, stdoutFd := none, stderrFd := none
        , errmsg := some (core.errMsg.getD garbage) }
  ⟨core, response, logMsg⟩

/-- A filesystem where everything is executable; inherited PATH is /bin. -/
def sysC1 : Sys := ⟨fun _ => true, some "/bin", ""⟩

/-- A filesystem where nothing is executable and PATH is not inherited. -/
def sysC2 : Sys := ⟨fun _ => false, none, ""⟩

/-- A filesystem where exactly /bin/sh is executable. -/
def sysW3 : Sys := ⟨fun s => s = "/bin/sh", none, ""⟩

/-- Same executables as `sysW3`, different inherited PATH and errno text. -/
def sysW3' : Sys := ⟨fun s => s = "/bin/sh", some "/y", "zz"⟩

/-- A filesystem where the name "x" is executable in both /a and /b. -/
def sysW4 : Sys := ⟨fun s => s = "/a/x" || s = "/b/x", none, ""⟩

/-- An environment list whose PATH entry is not first. -/
def envW5 : List String := ["TERM=xterm", "PATH=/usr/bin:/bin", "HOME=/root"]

/-- A filesystem with an inherited PATH to be shadowed by `envW5`. -/
def sysW5 : Sys := ⟨fun _ => false, some "/inherited", ""⟩

/-- A filesystem where exactly /bin/cat is executable. -/
def sysW6 : Sys := ⟨fun s => s = "/bin/cat", none, ""⟩

end Spawn

namespace Spawn

/-- A string with a non-empty left part stays non-empty after append. -/
theorem append_ne_empty_left (a b : String) (h : a ≠ "") : a ++ b ≠ "" := by
  intro hab
  apply h
  apply String.ext
  have hd := congrArg String.data hab
  rw [String.data_append] at hd
  have h2 : a.data ++ b.data = [] := by simpa using hd
  simpa using (List.append_eq_nil.mp h2).1

/-- Every token produced by the `strtok_r` tokenizer is a non-empty
character list. -/
theorem tokenizeAux_mem_ne_nil :
    ∀ (cs acc : List Char) (l : List Char), l ∈ tokenizeAux cs acc → l ≠ [] := by
  intro cs
  induction cs with
  | nil =>
    intro acc l hl
    by_cases h : acc.isEmpty
    · simp [tokenizeAux, h] at hl
    · simp [tokenizeAux, h] at hl
      subst hl
      simpa [List.isEmpty_iff] using h
  | cons c cs ih =>
    intro acc l hl
    by_cases hc : c = ':'
    · by_cases ha : acc.isEmpty
      · simp [tokenizeAux, hc, ha] at hl
        exact ih [] l hl
      · simp [tokenizeAux, hc, ha] at hl
        rcases hl with hl | hl
        · subst hl
          simpa [List.isEmpty_iff] using ha
        · exact ih [] l hl
    · simp [tokenizeAux, hc] at hl
      exact ih (c :: acc) l hl

/-- C1: the claim says that when a `pipe()` call fails after earlier pipes
were already created, all partially-created pipes are closed before `exec0`
returns its failure.  The code violates this: with the first pipe created
as descriptors (3, 4) and the second `pipe()` failing, `exec0` returns -1
with no process forked but with descriptors 3 and 4 still open — they are
never closed on this path. -/
theorem C1_pipe_leak :
    (exec0 sysC1 (some ⟨3, 4⟩) none none none "g" (some "/bin/true") []).pid = -1
    ∧ (exec0 sysC1 (some ⟨3, 4⟩) none none none "g" (some "/bin/true") []).forked = false
    ∧ (exec0 sysC1 (some ⟨3, 4⟩) none none none "g" (some "/bin/true") []).channels = none
    ∧ (exec0 sysC1 (some ⟨3, 4⟩) none none none "g" (some "/bin/true") []).openFds = [3, 4] := by
  decide

/-- C2: the claim says that exhausting a non-empty search path produces a
distinct "not found in search path" diagnostic.  The code violates this:
with search path "/x" and no executable match, `pfind` returns `NULL`
without writing any message to the error buffer (first conjunct), whereas
the empty/absent-PATH case does write its distinct "Unable to get $PATH."
message (second conjunct).  The two kinds are indeed never conflated, but
the claimed exhaustion diagnostic does not exist: the buffer is left
unwritten, and `exec0` then formats its uninitialized `pfind_errbuff`. -/
theorem C2_exhaustion_no_diagnostic :
    pfind sysC2 (some "prog") ["PATH=/x"] = ⟨none, none⟩
    ∧ pfind sysC2 (some "prog") [] = ⟨none, some "Unable to get $PATH.\n"⟩ := by
  decide

/-- C3: for a program name whose first character is '/' or '.', `pfind`
treats it as already a path: it succeeds returning that very name iff the
file is executable, fails iff it is not, and its result is independent of
the environment list and of the inherited search path. -/
theorem C3_path_argument (sys sys' : Sys) (name : String) (envp envp' : List String)
    (hex : sys.exec = sys'.exec)
    (h : name.data.head? = some '/' ∨ name.data.head? = some '.') :
    ((pfind sys (some name) envp).result = some name ↔ sys.exec name = true)
    ∧ ((pfind sys (some name) envp).result = none ↔ sys.exec name = false)
    ∧ pfind sys (some name) envp = pfind sys' (some name) envp' := by
  have hpf : ∀ (s : Sys) (e : List String),
      pfind s (some name) e = ⟨if s.exec name then some name else none, none⟩ := by
    intro s e
    simp only [pfind, if_pos h]
  refine ⟨?_, ?_, ?_⟩
  · rw [hpf]
    cases hexe : sys.exec name <;> simp
  · rw [hpf]
    cases hexe : sys.exec name <;> simp
  · rw [hpf sys envp, hpf sys' envp', hex]

/-- C3 witness: /bin/sh, executable in `sysW3`, resolves to itself with an
empty environment list, and the result is unchanged under a different
environment list and inherited path. -/
theorem C3_path_argument_witness :
    ((pfind sysW3 (some "/bin/sh") []).result = some "/bin/sh" ↔ sysW3.exec "/bin/sh" = true)
    ∧ ((pfind sysW3 (some "/bin/sh") []).result = none ↔ sysW3.exec "/bin/sh" = false)
    ∧ pfind sysW3 (some "/bin/sh") [] = pfind sysW3' (some "/bin/sh") ["PATH=/x"] :=
  C3_path_argument sysW3 sysW3' "/bin/sh" [] ["PATH=/x"] rfl (by decide)

/-- C4: for a bare program name and a selected non-empty search path,
`pfind` returns the candidate `<dir>/<name>` of the first directory, in the
tokenized order of the search path, whose candidate is executable — so when
two listed directories both hold the executable, the earlier one wins. -/
theorem C4_search_order (sys : Sys) (name path : String) (envp : List String)
    (hbare : ¬(name.data.head? = some '/' ∨ name.data.head? = some '.'))
    (hpath : path_val sys envp = some path) (hne : ¬path.length = 0) :
    (pfind sys (some name) envp).result
      = ((strtokSplit path).find? (fun d => sys.exec (candidate d name))).map
          (fun d => candidate d name) := by
  have hloop : ∀ ds : List String,
      pfindLoop sys name ds
        = (ds.find? (fun d => sys.exec (candidate d name))).map
            (fun d => candidate d name) := by
    intro ds
    induction ds with
    | nil => rfl
    | cons d ds ih =>
      by_cases hd : sys.exec (candidate d name)
      · simp [pfindLoop, List.find?_cons_of_pos _ (by simpa using hd), hd]
      · simp [pfindLoop, List.find?_cons_of_neg _ (by simpa using hd), hd, ih]
  simp only [pfind, if_neg hbare, hpath, if_neg hne]
  exact hloop _

/-- C4 witness: with "x" executable in both /a and /b and search path
"/a:/b", resolution returns /a/x — the earlier-listed directory wins. -/
theorem C4_search_order_witness :
    (pfind sysW4 (some "x") ["PATH=/a:/b"]).result = some "/a/x"
    ∧ ((strtokSplit "/a:/b").find? (fun d => sysW4.exec (candidate d "x"))).map
        (fun d => candidate d "x") = some "/a/x" := by
  have h := C4_search_order sysW4 "x" "/a:/b" ["PATH=/a:/b"] (by decide) (by decide) (by decide)
  refine ⟨?_, by decide⟩
  rw [h]
  decide

/-- C5: the search-path value is the suffix of the first "PATH="-headed
entry of the environment list when that list is non-empty (and is then
independent of the inherited variable), and is the inherited variable when
the list is empty; the "PATH="-headed test is exactly the prefix test. -/
theorem C5_path_selection (sys : Sys) (envp : List String) :
    (envp = [] → path_val sys envp = sys.inheritedPath)
    ∧ (envp ≠ [] →
        path_val sys envp
          = (envp.find? (fun p => hasPathDef p)).map
              (fun p => String.mk (p.data.drop path_def_len))
        ∧ ∀ inh : Option String,
            path_val ⟨sys.exec, inh, sys.forkErrMsg⟩ envp = path_val sys envp)
    ∧ ∀ p : String, hasPathDef p = true ↔ "PATH=".data <+: p.data := by
  have hloop : ∀ l : List String,
      path_val_loop l
        = (l.find? (fun p => hasPathDef p)).map
            (fun p => String.mk (p.data.drop path_def_len)) := by
    intro l
    induction l with
    | nil => rfl
    | cons p rest ih =>
      by_cases hp : hasPathDef p
      · simp [path_val_loop, List.find?_cons_of_pos _ hp, hp]
      · simp [path_val_loop, hp, List.find?_cons_of_neg _ (by simpa using hp), ih]
  refine ⟨?_, ?_, ?_⟩
  · intro h
    subst h
    rfl
  · intro h
    match envp, h with
    | p :: rest, _ =>
      constructor
      · show path_val_loop (p :: rest) = _
        exact hloop _
      · intro inh
        rfl
  · intro p
    simp only [hasPathDef, decide_eq_true_eq]
    rw [List.prefix_iff_eq_take]
    have h5 : ("PATH=".data).length = path_def_len := rfl
    rw [h5]
    constructor
    · intro h
      exact h.symm
    · intro h
      exact h.symm

/-- C5 witness: in `envW5` the PATH entry is found by exact "PATH=" prefix
match and its value /usr/bin:/bin is selected, shadowing any inherited
value. -/
theorem C5_path_selection_witness :
    path_val sysW5 envW5 = some "/usr/bin:/bin"
    ∧ path_val ⟨sysW5.exec, some "/other", sysW5.forkErrMsg⟩ envW5 = path_val sysW5 envW5 := by
  have h := C5_path_selection sysW5 envW5
  refine ⟨?_, (h.2.1 (by decide)).2 (some "/other")⟩
  rw [(h.2.1 (by decide)).1]
  decide

/-- C6: the child continuation uses `execve` iff the given environment list
is non-empty (otherwise `execv`); on image-replacement failure it exits
with status 127; and the launcher result for a successful fork reports the
positive child pid with no error message, independent of the child's exec
outcome, so exec failure is never surfaced launcher-side. -/
theorem C6_child_image_replacement (sys : Sys) (envp : List String) (execOk : Bool)
    (pipe0 pipe1 pipe2 : Pipe) (cpid : Nat) (garbage : String) (path : Option String)
    (hres : (pfind sys path envp).result.isSome = true) (hc : 0 < cpid) :
    ((childContinuation envp execOk).variant = ExecVariant.execve ↔ envp ≠ [])
    ∧ (execOk = false →
        (childContinuation envp execOk).outcome = ChildOutcome.exited 127)
    ∧ (exec0 sys (some pipe0) (some pipe1) (some pipe2) (some cpid) garbage path envp).errMsg
        = none
    ∧ 0 < (exec0 sys (some pipe0) (some pipe1) (some pipe2) (some cpid) garbage path envp).pid := by
  obtain ⟨fp, hfp⟩ := Option.isSome_iff_exists.mp hres
  refine ⟨?_, ?_, ?_, ?_⟩
  · cases envp <;> simp [childContinuation]
  · intro h
    subst h
    rfl
  · simp [exec0, hfp]
  · simp only [exec0, hfp]
    exact_mod_cast hc

/-- C6 witness: with the non-empty environment list ["A=1"] the child picks
`execve`; with exec failing it exits 127; the launcher still reports child
pid 42 with no error. -/
theorem C6_child_image_replacement_witness :
    (childContinuation ["A=1"] false).variant = ExecVariant.execve
    ∧ (childContinuation ["A=1"] false).outcome = ChildOutcome.exited 127
    ∧ (exec0 sysW6 (some ⟨3, 4⟩) (some ⟨5, 6⟩) (some ⟨7, 8⟩) (some 42) "g"
        (some "/bin/cat") ["A=1"]).errMsg = none
    ∧ 0 < (exec0 sysW6 (some ⟨3, 4⟩) (some ⟨5, 6⟩) (some ⟨7, 8⟩) (some 42) "g"
        (some "/bin/cat") ["A=1"]).pid := by
  have h := C6_child_image_replacement sysW6 ["A=1"] false ⟨3, 4⟩ ⟨5, 6⟩ ⟨7, 8⟩ 42 "g"
    (some "/bin/cat") (by decide) (by decide)
  exact ⟨h.1.mpr (by decide), h.2.1 rfl, h.2.2.1, h.2.2.2⟩

/-- C7: on a successful fork the launcher closes exactly the child-owned
pipe ends — pipe 0's read end and pipes 1 and 2's write ends — so the
descriptors still open are precisely the reported channels: channels[0] is
pipe 0's write end (stdin), channels[1] is pipe 1's read end (stdout),
channels[2] is pipe 2's read end (stderr), together with the positive child
pid. -/
theorem C7_parent_channels (sys : Sys) (pipe0 pipe1 pipe2 : Pipe) (cpid : Nat)
    (garbage : String) (path : Option String) (envp : List String)
    (hres : (pfind sys path envp).result.isSome = true) (hc : 0 < cpid)
    (hnd : [pipe0.r, pipe0.w, pipe1.r, pipe1.w, pipe2.r, pipe2.w].Nodup) :
    (exec0 sys (some pipe0) (some pipe1) (some pipe2) (some cpid) garbage path envp).pid
        = (cpid : Int)
    ∧ 0 < (exec0 sys (some pipe0) (some pipe1) (some pipe2) (some cpid) garbage path envp).pid
    ∧ (exec0 sys (some pipe0) (some pipe1) (some pipe2) (some cpid) garbage path envp).channels
        = some (pipe0.w, pipe1.r, pipe2.r)
    ∧ (exec0 sys (some pipe0) (some pipe1) (some pipe2) (some cpid) garbage path envp).openFds
        = [pipe0.w, pipe1.r, pipe2.r] := by
  obtain ⟨fp, hfp⟩ := Option.isSome_iff_exists.mp hres
  simp only [List.nodup_cons, List.mem_cons, List.mem_singleton, not_or,
    List.not_mem_nil, List.nodup_nil] at hnd
  refine ⟨by simp [exec0, hfp], by simp only [exec0, hfp]; exact_mod_cast hc,
    by simp [exec0, hfp], ?_⟩
  obtain ⟨⟨h1, h2, h3, h4, h5, -⟩, ⟨h6, h7, h8, h9, -⟩, ⟨h10, h11, h12, -⟩,
    ⟨h13, h14, -⟩, ⟨h15, -⟩, -⟩ := hnd
  simp [exec0, hfp, closeFd, List.filter, h7, h9, h10, h12, h14, h15,
    Ne.symm h1, Ne.symm h2, Ne.symm h3, Ne.symm h4, Ne.symm h5, Ne.symm h13, Ne.symm h14]

/-- C7 witness: pipes (3,4), (5,6), (7,8) and child pid 42 yield channels
(4, 5, 7) — pipe 0's write end, pipes 1 and 2's read ends — and exactly
those descriptors remain open launcher-side. -/
theorem C7_parent_channels_witness :
    (exec0 sysW6 (some ⟨3, 4⟩) (some ⟨5, 6⟩) (some ⟨7, 8⟩) (some 42) "g"
        (some "/bin/cat") []).pid = (42 : Int)
    ∧ 0 < (exec0 sysW6 (some ⟨3, 4⟩) (some ⟨5, 6⟩) (some ⟨7, 8⟩) (some 42) "g"
        (some "/bin/cat") []).pid
    ∧ (exec0 sysW6 (some ⟨3, 4⟩) (some ⟨5, 6⟩) (some ⟨7, 8⟩) (some 42) "g"
        (some "/bin/cat") []).channels = some (4, 5, 7)
    ∧ (exec0 sysW6 (some ⟨3, 4⟩) (some ⟨5, 6⟩) (some ⟨7, 8⟩) (some 42) "g"
        (some "/bin/cat") []).openFds = [4, 5, 7] :=
  C7_parent_channels sysW6 ⟨3, 4⟩ ⟨5, 6⟩ ⟨7, 8⟩ 42 "g" (some "/bin/cat") []
    (by decide) (by decide) (by decide)

/-- C8: every (non-throwing) call of the entry point returns exactly one of
two shapes — a positive pid with the three channel keys present, no errmsg
key and no log call, or a non-positive pid with a non-empty errmsg that was
also passed to the log callback; the response pid is the pid `exec0`
returned. -/
theorem C8_response_shapes (sys : Sys) (p0 p1 p2 : Option Pipe) (forkRes : Option Nat)
    (garbage : String) (args envs : List String)
    (hfork : ∀ cpid, forkRes = some cpid → 0 < cpid) :
    (exec_0 sys p0 p1 p2 forkRes garbage args envs).response.pid
        = (exec_0 sys p0 p1 p2 forkRes garbage args envs).core.pid
    ∧ (0 < (exec_0 sys p0 p1 p2 forkRes garbage args envs).response.pid →
        (exec_0 sys p0 p1 p2 forkRes garbage args envs).response.errmsg = none
        ∧ (exec_0 sys p0 p1 p2 forkRes garbage args envs).logMsg = none
        ∧ (exec_0 sys p0 p1 p2 forkRes garbage args envs).response.stdinFd.isSome = true
        ∧ (exec_0 sys p0 p1 p2 forkRes garbage args envs).response.stdoutFd.isSome = true
        ∧ (exec_0 sys p0 p1 p2 forkRes garbage args envs).response.stderrFd.isSome = true)
    ∧ ((exec_0 sys p0 p1 p2 forkRes garbage args envs).response.pid ≤ 0 →
        ∃ m, (exec_0 sys p0 p1 p2 forkRes garbage args envs).response.errmsg = some m
          ∧ m ≠ ""
          ∧ (exec_0 sys p0 p1 p2 forkRes garbage args envs).logMsg = some m) := by
  cases hpf : (pfind sys args.head? envs).result with
  | none =>
    refine ⟨by simp [exec_0, exec0, hpf], by simp [exec_0, exec0, hpf], ?_⟩
    intro _
    refine ⟨"Unable to find full path for \"" ++ args.head?.getD "" ++ "\"\n"
        ++ (pfind sys args.head? envs).errMsg.getD garbage ++ "\n",
      by simp [exec_0, exec0, hpf], ?_, by simp [exec_0, exec0, hpf]⟩
    exact append_ne_empty_left _ _ (append_ne_empty_left _ _ (append_ne_empty_left _ _
      (append_ne_empty_left _ _ (by decide))))
  | some fp =>
    cases p0 with
    | none =>
      refine ⟨by simp [exec_0, exec0, hpf], by simp [exec_0, exec0, hpf], ?_⟩
      intro _
      exact ⟨"exec0: returning due to error.\n", by simp [exec_0, exec0, hpf],
        by decide, by simp [exec_0, exec0, hpf]⟩
    | some pipe0 =>
      cases p1 with
      | none =>
        refine ⟨by simp [exec_0, exec0, hpf], by simp [exec_0, exec0, hpf], ?_⟩
        intro _
        exact ⟨"exec0: returning due to error.\n", by simp [exec_0, exec0, hpf],
          by decide, by simp [exec_0, exec0, hpf]⟩
      | some pipe1 =>
        cases p2 with
        | none =>
          refine ⟨by simp [exec_0, exec0, hpf], by simp [exec_0, exec0, hpf], ?_⟩
          intro _
          exact ⟨"exec0: returning due to error.\n", by simp [exec_0, exec0, hpf],
            by decide, by simp [exec_0, exec0, hpf]⟩
        | some pipe2 =>
          cases forkRes with
          | none =>
            refine ⟨by simp [exec_0, exec0, hpf], by simp [exec_0, exec0, hpf], ?_⟩
            intro _
            refine ⟨"exec0: returning due to error: " ++ sys.forkErrMsg ++ "\n",
              by simp [exec_0, exec0, hpf], ?_, by simp [exec_0, exec0, hpf]⟩
            exact append_ne_empty_left _ _ (append_ne_empty_left _ _ (by decide))
          | some cpid =>
            have hcp : 0 < cpid := hfork cpid rfl
            have hpos : (0 : Int) < (cpid : Int) := by exact_mod_cast hcp
            have hnle : ¬((cpid : Int) ≤ 0) := by omega
            refine ⟨by simp [exec_0, exec0, hpf, hpos, hnle], ?_, ?_⟩
            · intro _
              refine ⟨?_, ?_, ?_, ?_, ?_⟩ <;> simp [exec_0, exec0, hpf, hpos, hnle]
            · intro hle
              exfalso
              revert hle
              simp [exec_0, exec0, hpf, hpos, hnle]

/-- C8 witness, success side: launching executable /bin/cat with child pid
42 returns the positive pid, three channel keys, no errmsg and no log
call. -/
theorem C8_response_shapes_witness :
    (exec_0 sysW6 (some ⟨3, 4⟩) (some ⟨5, 6⟩) (some ⟨7, 8⟩) (some 42) "g"
        ["/bin/cat"] []).response.errmsg = none
    ∧ (exec_0 sysW6 (some ⟨3, 4⟩) (some ⟨5, 6⟩) (some ⟨7, 8⟩) (some 42) "g"
        ["/bin/cat"] []).logMsg = none
    ∧ (exec_0 sysW6 (some ⟨3, 4⟩) (some ⟨5, 6⟩) (some ⟨7, 8⟩) (some 42) "g"
        ["/bin/cat"] []).response.stdinFd.isSome = true
    ∧ (exec_0 sysW6 (some ⟨3, 4⟩) (some ⟨5, 6⟩) (some ⟨7, 8⟩) (some 42) "g"
        ["/bin/cat"] []).response.stdoutFd.isSome = true
    ∧ (exec_0 sysW6 (some ⟨3, 4⟩) (some ⟨5, 6⟩) (some ⟨7, 8⟩) (some 42) "g"
        ["/bin/cat"] []).response.stderrFd.isSome = true := by
  have h := C8_response_shapes sysW6 (some ⟨3, 4⟩) (some ⟨5, 6⟩) (some ⟨7, 8⟩) (some 42) "g"
    ["/bin/cat"] [] (by intro cpid hh; injection hh with hh; omega)
  exact h.2.1 (by decide)

/-- C9: `strtok_r` tokenization never yields an empty token — an empty
search-path entry is never tested as a candidate directory — and
resolution over the search path "::/bin" behaves exactly as over "/bin". -/
theorem C9_empty_entries_skipped (s t : String) (ht : t ∈ strtokSplit s)
    (sys : Sys) (name : Option String) :
    t ≠ "" ∧ pfind sys name ["PATH=::/bin"] = pfind sys name ["PATH=/bin"] := by
  constructor
  · simp only [strtokSplit, List.mem_map] at ht
    obtain ⟨l, hl, rfl⟩ := ht
    have hnil := tokenizeAux_mem_ne_nil s.data [] l hl
    intro h
    apply hnil
    have hdata : (String.mk l).data = ("" : String).data := by rw [h]
    simpa using hdata
  · cases name with
    | none => rfl
    | some n =>
      simp only [pfind]
      by_cases h : n.data.head? = some '/' ∨ n.data.head? = some '.'
      · rw [if_pos h, if_pos h]
      · rw [if_neg h, if_neg h]
        have h1 : path_val sys ["PATH=::/bin"] = some "::/bin" := by
          show path_val_loop ["PATH=::/bin"] = some "::/bin"
          decide
        have h2 : path_val sys ["PATH=/bin"] = some "/bin" := by
          show path_val_loop ["PATH=/bin"] = some "/bin"
          decide
        rw [h1, h2]
        have htok : strtokSplit "::/bin" = strtokSplit "/bin" := by decide
        simp only [htok]
        rw [if_neg (by decide : ¬("::/bin".length = 0)), if_neg (by decide : ¬("/bin".length = 0))]

/-- C9 witness: the token "a" of "a:b" is non-empty, and for the bare name
"x" under `sysC2`, resolution over "::/bin" equals resolution over
"/bin". -/
theorem C9_empty_entries_skipped_witness :
    "a" ≠ "" ∧ pfind sysC2 (some "x") ["PATH=::/bin"] = pfind sysC2 (some "x") ["PATH=/bin"] :=
  C9_empty_entries_skipped "a:b" "a" (by decide) sysC2 (some "x")

/-- C10: calling the entry point with an empty argument array passes a NULL
program name to `exec0`, which `pfind` rejects with its "Null argument"
sanity check: the call returns pid -1 with an error message combining the
wrapper text and the pfind diagnostic, the log callback is invoked, no
`pipe()` call is made and no process is forked. -/
theorem C10_empty_args_null_name (sys : Sys) (p0 p1 p2 : Option Pipe)
    (forkRes : Option Nat) (garbage : String) (envs : List String) :
    (exec_0 sys p0 p1 p2 forkRes garbage [] envs).core.pid = -1
    ∧ (exec_0 sys p0 p1 p2 forkRes garbage [] envs).core.errMsg
        = some ("Unable to find full path for \"\"\n" ++ "pfind(): Null argument.\n" ++ "\n")
    ∧ (exec_0 sys p0 p1 p2 forkRes garbage [] envs).response.pid = -1
    ∧ (exec_0 sys p0 p1 p2 forkRes garbage [] envs).response.errmsg.isSome = true
    ∧ (exec_0 sys p0 p1 p2 forkRes garbage [] envs).logMsg.isSome = true
    ∧ (exec_0 sys p0 p1 p2 forkRes garbage [] envs).core.pipeCalls = 0
    ∧ (exec_0 sys p0 p1 p2 forkRes garbage [] envs).core.forked = false := by
  simp [exec_0, exec0, pfind]

end Spawn
